import Mathlib

/-!
Verification development for the cng-backend repository: a shallow embedding
of the station-suggestion endpoint, the shared geospatial helpers, the
subscription checker, the in-memory rate limiter and the payment-webhook
consumer, together with theorems settling the specification claims.

JavaScript numbers are modelled as rationals.  The transcendental functions
of the Math object, and the decimal formatting helpers toFixed, are taken as
abstract function parameters (MathOps, JsFmt): every theorem about code that
uses them is proved for all instantiations, and concrete sample
instantiations are used for closed-form checks.
-/

/-- Abstract interface for the JavaScript Math functions used by the
Haversine helpers.  Both copies of the distance function call the very same
Math.sin, Math.cos, Math.sqrt, Math.atan2 and Math.PI, so both Lean
transcriptions receive the same bundle. -/
structure MathOps where
  sin : ℚ → ℚ
  cos : ℚ → ℚ
  sqrt : ℚ → ℚ
  atan2 : ℚ → ℚ → ℚ
  pi : ℚ

/-- Integer ceiling division, the shape Math.ceil(a / b) takes on integral
millisecond inputs.  Lean division on Int is Euclidean, so negating twice
turns its floor into a ceiling. -/
def jsCeilDiv (a b : Int) : Int := -((-a) / b)

namespace ApiUtils

/-- Transcribes toRad from src/lib/api-utils.ts: degrees to radians. -/
def toRad (m : MathOps) (degrees : ℚ) : ℚ := degrees * m.pi / 180

/-- Transcribes calculateHaversineDistance from src/lib/api-utils.ts,
lines 118 to 141.  Returns kilometres. -/
def calculateHaversineDistance (m : MathOps) (lat1 lon1 lat2 lon2 : ℚ) : ℚ :=
  let R : ℚ := 6371
  let dLat := toRad m (lat2 - lat1)
  let dLon := toRad m (lon2 - lon1)
  let a := m.sin (dLat / 2) * m.sin (dLat / 2) +
    m.cos (toRad m lat1) * m.cos (toRad m lat2) *
      m.sin (dLon / 2) * m.sin (dLon / 2)
  let c := 2 * m.atan2 (m.sqrt a) (m.sqrt (1 - a))
  R * c

end ApiUtils

namespace StationsSearch

/-- Transcribes the private calculateHaversineDistance embedded in
src/app/api/stations/search/route.ts, lines 128 to 147, which inlines the
degree-to-radian conversion instead of calling a helper. -/
def calculateHaversineDistance (m : MathOps) (lat1 lng1 lat2 lng2 : ℚ) : ℚ :=
  let R : ℚ := 6371
  let dLat := ((lat2 - lat1) * m.pi) / 180
  let dLng := ((lng2 - lng1) * m.pi) / 180
  let a := m.sin (dLat / 2) * m.sin (dLat / 2) +
    m.cos (lat1 * m.pi / 180) * m.cos (lat2 * m.pi / 180) *
      m.sin (dLng / 2) * m.sin (dLng / 2)
  let c := 2 * m.atan2 (m.sqrt a) (m.sqrt (1 - a))
  R * c

end StationsSearch

/-- A Station row as the suggestion endpoint and the front end see it
(src/prisma/seed.ts, the Station interface in the client page). -/
structure Station where
  id : String
  name : String
  address : String
  city : String
  state : String
  lat : ℚ
  lng : ℚ
  fuelTypes : String
  isPartner : Bool
  rating : ℚ
deriving Repr, DecidableEq

/-- Result of parseIndianPlate: the two-letter region code and the state it
names. -/
structure RegionInfo where
  regionCode : String
  state : String
deriving Repr, DecidableEq

/-- The Indian state-code table of parseIndianPlate in
src/app/api/suggest-pumps/route.ts. -/
def stateMap : List (String × String) :=
  [("AP", "Andhra Pradesh"), ("AR", "Arunachal Pradesh"), ("AS", "Assam"),
   ("BR", "Bihar"), ("CG", "Chhattisgarh"), ("GA", "Goa"), ("GJ", "Gujarat"),
   ("HR", "Haryana"), ("HP", "Himachal Pradesh"), ("JH", "Jharkhand"),
   ("KA", "Karnataka"), ("KL", "Kerala"), ("MP", "Madhya Pradesh"),
   ("MH", "Maharashtra"), ("MN", "Manipur"), ("ML", "Meghalaya"),
   ("MZ", "Mizoram"), ("NL", "Nagaland"), ("OD", "Odisha"), ("OR", "Odisha"),
   ("PB", "Punjab"), ("RJ", "Rajasthan"), ("SK", "Sikkim"),
   ("TN", "Tamil Nadu"), ("TS", "Telangana"), ("TR", "Tripura"),
   ("UP", "Uttar Pradesh"), ("UK", "Uttarakhand"), ("WB", "West Bengal"),
   ("DL", "Delhi"), ("AN", "Andaman and Nicobar"), ("CH", "Chandigarh"),
   ("DN", "Dadra and Nagar Haveli"), ("DD", "Daman and Diu"),
   ("LD", "Lakshadweep"), ("PY", "Puducherry"), ("BH", "India")]

/-- Transcribes parseIndianPlate: uppercase the plate, strip characters
outside A-Z and 0-9, read the first two characters as a state code and look
it up in the table. -/
def parseIndianPlate (plate : String) : Option RegionInfo :=
  let cleaned := String.mk ((plate.data.map Char.toUpper).filter fun c =>
    (decide ('A' ≤ c) && decide (c ≤ 'Z')) || (decide ('0' ≤ c) && decide (c ≤ '9')))
  let stateCode := cleaned.take 2
  match stateMap.lookup stateCode with
  | some state => some { regionCode := stateCode, state := state }
  | none => none

/-- JavaScript truthiness of the test userState && station.state === userState
used by calculateStationScore and generateReason: an undefined userState and
the empty string are both falsy. -/
def sameStateApplies (stationState : String) (userState : Option String) : Bool :=
  match userState with
  | some u => (u != "") && (stationState == u)
  | none => false

/-- Transcribes calculateStationScore from src/app/api/suggest-pumps/route.ts,
lines 222 to 244: base score 100 minus twice the distance, plus 20 for
partners, plus five times the rating, plus 10 for a same-state match, clamped
at zero. -/
def calculateStationScore (station : Station) (distance : ℚ)
    (userState : Option String) : ℚ :=
  let score := 100 - distance * 2
  let score := if station.isPartner then score + 20 else score
  let score := score + station.rating * 5
  let score := if sameStateApplies station.state userState then score + 10 else score
  max 0 score

/-- Abstract interface for the JavaScript number-formatting conversions in the
route: round2 models parseFloat(x.toFixed(2)) and fmt1 models the string
x.toFixed(1). -/
structure JsFmt where
  round2 : ℚ → ℚ
  fmt1 : ℚ → String

/-- Transcribes generateReason from src/app/api/suggest-pumps/route.ts: the
human-readable explanation attached to each suggestion. -/
def generateReason (js : JsFmt) (station : Station) (distance : ℚ)
    (userState : Option String) : String :=
  let reasons : List String :=
    (if distance < 2 then ["Very close"]
     else if distance < 5 then ["Nearby"] else []) ++
    (if station.isPartner then ["Partner station"] else []) ++
    (if (9 : ℚ) / 2 ≤ station.rating then ["Highly rated"] else []) ++
    (if sameStateApplies station.state userState then ["In your state"] else [])
  if reasons.isEmpty then js.fmt1 distance ++ "km away"
  else String.intercalate " • " reasons

/-- The JSON body of a POST /api/suggest-pumps request before validation.
A field whose value is absent or of the wrong primitive type is modelled as
none. -/
structure RawBody where
  plate : Option String
  lat : Option ℚ
  lng : Option ℚ
  fuelType : Option String
  radiusKm : Option ℚ
  searchQuery : Option String
  sortBy : Option String
deriving Repr, DecidableEq

/-- The body after a successful suggestPumpsSchema.safeParse: lat and lng are
required numbers, and sortBy has received the zod default value distance. -/
structure ParsedBody where
  plate : Option String
  lat : ℚ
  lng : ℚ
  fuelType : Option String
  radiusKm : Option ℚ
  searchQuery : Option String
  sortBy : String
deriving Repr, DecidableEq

/-- Transcribes suggestPumpsSchema (lines 7 to 15 of the route): lat and lng
are required numbers, fuelType if present must be CNG, radiusKm if present
must lie in [1, 100], sortBy if present must be distance, rating or name and
otherwise defaults to distance. -/
def suggestPumpsSchemaParse (b : RawBody) : Option ParsedBody :=
  match b.lat, b.lng with
  | some lat, some lng =>
    if (match b.fuelType with | some f => f == "CNG" | none => true)
        && (match b.radiusKm with
            | some r => decide (1 ≤ r) && decide (r ≤ 100)
            | none => true)
        && (match b.sortBy with
            | some s => (s == "distance") || (s == "rating") || (s == "name")
            | none => true) then
      some { plate := b.plate, lat := lat, lng := lng, fuelType := b.fuelType,
             radiusKm := b.radiusKm, searchQuery := b.searchQuery,
             sortBy := b.sortBy.getD "distance" }
    else none
  | _, _ => none

/-- One entry of the suggestions array in the response. -/
structure StationSuggestion where
  station : Station
  distance : ℚ
  score : ℚ
  reason : String
deriving Repr, DecidableEq

/-- The observable outcome of the POST handler.  status, success, error,
suggestions, count and message are response fields; hasDetails records
whether the zod issue list was attached; dbQueried is instrumentation
recording whether prisma.station.findMany was reached. -/
structure SuggestResponse where
  status : Nat
  success : Bool
  error : Option String
  hasDetails : Bool
  dbQueried : Bool
  suggestions : List StationSuggestion
  count : Option Nat
  message : Option String
deriving Repr, DecidableEq

/-- The per-station body of the stations.map call in the POST handler,
lines 94 to 115: compute the Haversine distance from the query point, drop
the station when it exceeds the radius, otherwise build the suggestion with
two-decimal distance and score. -/
def buildSuggestions (m : MathOps) (js : JsFmt) (p : ParsedBody)
    (stations : List Station) : List StationSuggestion :=
  let radiusKm := p.radiusKm.getD 20
  let userState := (p.plate.bind parseIndianPlate).map RegionInfo.state
  stations.filterMap fun station =>
    let distance := ApiUtils.calculateHaversineDistance m p.lat p.lng station.lat station.lng
    if radiusKm < distance then none
    else some { station := station,
                distance := js.round2 distance,
                score := js.round2 (calculateStationScore station distance userState),
                reason := generateReason js station distance userState }

/-- The sort block of the POST handler, lines 117 to 126: a stable sort by
the selected comparator.  The score branch is the final else of the chain. -/
def sortSuggestions (sortBy : String) (l : List StationSuggestion) :
    List StationSuggestion :=
  if sortBy == "distance" then
    l.mergeSort fun a b => decide (a.distance ≤ b.distance)
  else if sortBy == "rating" then
    l.mergeSort fun a b => decide (b.station.rating ≤ a.station.rating)
  else if sortBy == "name" then
    l.mergeSort fun a b => decide (a.station.name ≤ b.station.name)
  else
    l.mergeSort fun a b => decide (b.score ≤ a.score)

/-- Transcribes the POST handler of src/app/api/suggest-pumps/route.ts after
the JSON body has been read.  The stations argument is the candidate list
returned by the bounding-box prisma.station.findMany query. -/
def suggestPumpsPOST (m : MathOps) (js : JsFmt) (body : RawBody)
    (stations : List Station) : SuggestResponse :=
  match suggestPumpsSchemaParse body with
  | none =>
    { status := 400, success := false, error := some "Validation failed",
      hasDetails := true, dbQueried := false, suggestions := [],
      count := none, message := none }
  | some p =>
    if stations.isEmpty then
      { status := 200, success := true, error := none, hasDetails := false,
        dbQueried := true, suggestions := [], count := none,
        message := some "No stations found within the specified radius" }
    else
      let top := (sortSuggestions p.sortBy (buildSuggestions m js p stations)).take 30
      { status := 200, success := true, error := none, hasDetails := false,
        dbQueried := true, suggestions := top, count := some top.length,
        message := none }

/-- The shape shared by the catch blocks of the request handlers: the HTTP
status, the error field of the JSON body, and the received flag that only the
webhook body carries. -/
structure CatchResponse where
  status : Nat
  errorBody : Option String
  received : Bool
deriving Repr, DecidableEq

/-- The catch block of the suggest-pumps POST handler, lines 141 to 147:
a 500 with a generic JSON error. -/
def suggestPumpsCatchResponse : CatchResponse :=
  { status := 500, errorBody := some "Failed to suggest pumps", received := false }

/-- The catch block of the Razorpay webhook POST handler, lines 181 to 189:
it deliberately answers HTTP 200 with the error message in the body so that
Razorpay does not retry the delivery. -/
def razorpayWebhookCatchResponse (msg : String) : CatchResponse :=
  { status := 200, errorBody := some msg, received := true }

/-- The grace period constant of src/lib/subscription.ts, line 5. -/
def GRACE_PERIOD_DAYS : Int := 3

/-- Milliseconds in a day, the divisor 1000 * 60 * 60 * 24 of the
daysRemaining computation. -/
def MS_PER_DAY : Nat := 1000 * 60 * 60 * 24

/-- The two columns of the StationOwner row that checkSubscription selects.
Timestamps are epoch milliseconds. -/
structure OwnerSubRecord where
  subscriptionType : Option String
  subscriptionEndsAt : Option Int
deriving Repr, DecidableEq

/-- The value checkSubscription resolves with.  expiryDate is the
subscriptionEndsAt timestamp in epoch milliseconds. -/
structure SubscriptionCheckResult where
  isValid : Bool
  isExpired : Bool
  isInGracePeriod : Bool
  daysRemaining : Int
  subscriptionType : Option String
  expiryDate : Option Int
  message : Option String
deriving Repr, DecidableEq

/-- The interpolated grace message of the second branch of
checkSubscription. -/
def graceMessage (daysRemaining : Int) : String :=
  "Subscription expired " ++ toString daysRemaining.natAbs ++
    " day(s) ago. Grace period ends in " ++
    toString (GRACE_PERIOD_DAYS + daysRemaining) ++ " day(s)"

/-- Transcribes checkSubscription from src/lib/subscription.ts, lines 63 to
103.  The owner argument is the prisma.stationOwner.findUnique result and
now is Date.now() in epoch milliseconds; daysRemaining is
Math.ceil((subscriptionEndsAt - now) / 86400000).  A present but empty
subscriptionType string is falsy in JavaScript and lands in the
no-subscription branch. -/
def checkSubscription (owner : Option OwnerSubRecord) (now : Int) :
    SubscriptionCheckResult :=
  match owner with
  | none =>
    { isValid := false, isExpired := false, isInGracePeriod := false,
      daysRemaining := 0, subscriptionType := none, expiryDate := none,
      message := some "Owner not found" }
  | some o =>
    match o.subscriptionType, o.subscriptionEndsAt with
    | some st, some endsAt =>
      if st == "" then
        { isValid := false, isExpired := false, isInGracePeriod := false,
          daysRemaining := 0, subscriptionType := none, expiryDate := none,
          message := some "No active subscription" }
      else
        let timeDiff := endsAt - now
        let daysRemaining := jsCeilDiv timeDiff MS_PER_DAY
        if 0 < daysRemaining then
          { isValid := true, isExpired := false, isInGracePeriod := false,
            daysRemaining := daysRemaining, subscriptionType := some st,
            expiryDate := some endsAt, message := none }
        else if -GRACE_PERIOD_DAYS ≤ daysRemaining then
          { isValid := true, isExpired := true, isInGracePeriod := true,
            daysRemaining := daysRemaining, subscriptionType := some st,
            expiryDate := some endsAt, message := some (graceMessage daysRemaining) }
        else
          { isValid := false, isExpired := true, isInGracePeriod := false,
            daysRemaining := daysRemaining, subscriptionType := some st,
            expiryDate := some endsAt,
            message := some "Subscription has expired. Please renew to continue." }
    | _, _ =>
      { isValid := false, isExpired := false, isInGracePeriod := false,
        daysRemaining := 0, subscriptionType := none, expiryDate := none,
        message := some "No active subscription" }

/-- One entry of the in-memory rate-limit store of src/lib/rate-limit.ts:
the request count and the window end in epoch milliseconds. -/
structure RateRecord where
  count : Nat
  resetTime : Int
deriving Repr, DecidableEq

/-- A rate-limit configuration: window length in milliseconds and the
maximum number of requests per window. -/
structure RateLimitConfig where
  windowMs : Int
  maxRequests : Nat
deriving Repr, DecidableEq

/-- The 429 response rateLimit builds when the limit is exceeded: status and
the Retry-After header value Math.ceil((resetTime - now) / 1000). -/
structure RateLimitExceeded where
  status : Nat
  retryAfter : Int
deriving Repr, DecidableEq

/-- The identifier rateLimit keys the store with: first entry of the
x-forwarded-for list, else x-real-ip, else unknown, joined with the user
agent.  An empty x-forwarded-for header is falsy in JavaScript. -/
def clientIdentifier (forwarded realIp userAgent : Option String) : String :=
  let ip := if forwarded.getD "" != "" then
      ((forwarded.getD "").splitOn ",").headD ""
    else realIp.getD "unknown"
  ip ++ "-" ++ userAgent.getD "unknown"

/-- Transcribes rateLimit from src/lib/rate-limit.ts, lines 33 to 78, for a
single client identifier: record is the store entry for that identifier
(entries for distinct identifiers are independent keys of the global map)
and now is Date.now().  Returns the response (none means the request is
allowed) and the new store entry. -/
def rateLimit (record : Option RateRecord) (now : Int)
    (config : RateLimitConfig) : Option RateLimitExceeded × RateRecord :=
  match record with
  | none => (none, { count := 1, resetTime := now + config.windowMs })
  | some r =>
    if r.resetTime < now then
      (none, { count := 1, resetTime := now + config.windowMs })
    else if config.maxRequests ≤ r.count then
      (some { status := 429, retryAfter := jsCeilDiv (r.resetTime - now) 1000 }, r)
    else
      (none, { r with count := r.count + 1 })

/-- Folds rateLimit over a list of call times for one identifier, counting
how many calls were allowed (returned null). -/
def rateLimitRun (record : Option RateRecord) (ts : List Int)
    (config : RateLimitConfig) : Nat × Option RateRecord :=
  match ts with
  | [] => (0, record)
  | t :: rest =>
    let step := rateLimit record t config
    let tail := rateLimitRun (some step.2) rest config
    ((if step.1 = none then 1 else 0) + tail.1, tail.2)

/-- The predefined configurations exported as rateLimitConfigs in
src/lib/rate-limit.ts, lines 83 to 99. -/
structure RateLimitConfigs where
  auth : RateLimitConfig
  api : RateLimitConfig
  expensive : RateLimitConfig
deriving Repr, DecidableEq

/-- The literal rateLimitConfigs object: 5 per 15 minutes for auth, 60 per
minute for the general api, 10 per minute for expensive operations. -/
def rateLimitConfigs : RateLimitConfigs :=
  { auth := { windowMs := 15 * 60 * 1000, maxRequests := 5 },
    api := { windowMs := 60 * 1000, maxRequests := 60 },
    expensive := { windowMs := 60 * 1000, maxRequests := 10 } }

/-- A subscription plan row of the planDetails table in
src/lib/subscription-activation.ts. -/
structure PlanDetail where
  name : String
  price : Nat
  duration : Nat
deriving Repr, DecidableEq

/-- The planDetails lookup object of src/lib/subscription-activation.ts. -/
def planDetails (planId : String) : Option PlanDetail :=
  match planId with
  | "basic" => some { name := "Basic", price := 999, duration := 30 }
  | "standard" => some { name := "Standard", price := 2499, duration := 30 }
  | "premium" => some { name := "Premium", price := 4999, duration := 30 }
  | "trial" => some { name := "7-Day Trial", price := 1, duration := 7 }
  | _ => none

/-- The subscription columns of the StationOwner row that
activateSubscription updates and returns. -/
structure OwnerState where
  subscriptionType : Option String
  subscriptionEndsAt : Option Int
deriving Repr, DecidableEq

/-- The PaymentHistory row keyed by the razorpayOrderId of the webhook
event. -/
structure PaymentRecord where
  ownerId : String
  planId : String
  status : String
  razorpayPaymentId : Option String
  razorpaySignature : Option String
  subscriptionStartsAt : Option Int
  subscriptionEndsAt : Option Int
deriving Repr, DecidableEq

/-- The slice of the database touched while a captured payment is processed:
the payment row for the order id of the event, the owner it belongs to, and
counters for the appended ActivityLog and Notification rows. -/
structure CrmState where
  paymentRecord : Option PaymentRecord
  owner : OwnerState
  activityLogCount : Nat
  notificationCount : Nat
deriving Repr, DecidableEq

/-- The value activateSubscription resolves with. -/
structure ActivationResult where
  success : Bool
  ownerResult : Option OwnerState
  activationError : Option String
deriving Repr, DecidableEq

/-- Transcribes activateSubscription from src/lib/subscription-activation.ts:
validate the plan, refuse when the payment row is missing, return the
current owner unchanged when the payment is already marked success, and
otherwise set the owner subscription and mark the payment success in one
transaction, then append an activity log and a notification.  The calendar
day arithmetic of expiryDate.setDate is modelled as whole days of 86400000
milliseconds. -/
def activateSubscription (s : CrmState) (planId : String)
    (razorpayPaymentId : String) (razorpaySignature : Option String)
    (now : Int) : ActivationResult × CrmState :=
  match planDetails planId with
  | none =>
    ({ success := false, ownerResult := none,
       activationError := some ("Invalid plan: " ++ planId) }, s)
  | some plan =>
    match s.paymentRecord with
    | none =>
      ({ success := false, ownerResult := none,
         activationError := some "Payment record not found" }, s)
    | some pay =>
      if pay.status == "success" then
        ({ success := true, ownerResult := some s.owner,
           activationError := none }, s)
      else
        let expiry := now + (plan.duration : Int) * (MS_PER_DAY : Int)
        let owner2 : OwnerState :=
          { subscriptionType := some planId, subscriptionEndsAt := some expiry }
        let pay2 : PaymentRecord :=
          { pay with razorpayPaymentId := some razorpayPaymentId,
                     razorpaySignature := razorpaySignature,
                     status := "success",
                     subscriptionStartsAt := some now,
                     subscriptionEndsAt := some expiry }
        ({ success := true, ownerResult := some owner2, activationError := none },
         { paymentRecord := some pay2, owner := owner2,
           activityLogCount := s.activityLogCount + 1,
           notificationCount := s.notificationCount + 1 })

/-- The acknowledgement JSON the webhook handler answers with. -/
structure WebhookAck where
  status : Nat
  received : Bool
  message : Option String
  ackError : Option String
deriving Repr, DecidableEq

/-- Outcome of processing one payment.captured delivery: the response, the
database state afterwards, and whether activateSubscription was invoked. -/
structure CapturedOutcome where
  response : WebhookAck
  state : CrmState
  activateInvoked : Bool
deriving Repr, DecidableEq

/-- Transcribes the payment.captured branch of the Razorpay webhook POST
handler, src/app/api/webhooks/razorpay/route.ts lines 75 to 134: missing
payment row and already-successful payment are acknowledged without
activating; otherwise activateSubscription runs and its failure is still
acknowledged with HTTP 200. -/
def processCapturedPayment (s : CrmState) (razorpayPaymentId : String)
    (now : Int) : CapturedOutcome :=
  match s.paymentRecord with
  | none =>
    { response := { status := 200, received := true, message := none,
                    ackError := some "Payment record not found" },
      state := s, activateInvoked := false }
  | some pay =>
    if pay.status == "success" then
      { response := { status := 200, received := true,
                      message := some "Payment already processed", ackError := none },
        state := s, activateInvoked := false }
    else
      let step := activateSubscription s pay.planId razorpayPaymentId none now
      if step.1.success = false then
        { response := { status := 200, received := true, message := none,
                        ackError := step.1.activationError },
          state := step.2, activateInvoked := true }
      else
        { response := { status := 200, received := true,
                        message := some "Subscription activated", ackError := none },
          state := step.2, activateInvoked := true }

/-- Sample Math bundle for closed-form checks: near the equator and for the
small angular differences of the examples it plays the role of the real
trigonometric functions, and it makes the pipeline fully computable. -/
def sampleMath : MathOps :=
  { sin := fun x => x, cos := fun _ => 1, sqrt := fun x => x,
    atan2 := fun y _ => y, pi := 360 }

/-- Sample formatting bundle for closed-form checks: rounding is the
identity (all sample values are exact two-decimal rationals). -/
def idFmt : JsFmt :=
  { round2 := fun x => x, fmt1 := fun _ => "" }

/-- Sample candidate station close to the query point, with no partner flag
and a zero rating. -/
def stNear : Station :=
  { id := "st-near", name := "Quiet Corner Fuels", address := "1 Ring Rd",
    city := "Pune", state := "Maharashtra", lat := 1/100, lng := 0,
    fuelTypes := "CNG", isPartner := false, rating := 0 }

/-- Sample candidate station twice as far from the query point, a partner
with a five-star rating, so its score exceeds the nearer station. -/
def stFar : Station :=
  { id := "st-far", name := "Highway Star CNG", address := "9 NH48",
    city := "Pune", state := "Maharashtra", lat := 1/50, lng := 0,
    fuelTypes := "CNG", isPartner := true, rating := 5 }

/-- Sample request body that selects no sort field. -/
def bodyDefaultSort : RawBody :=
  { plate := none, lat := some 0, lng := some 0, fuelType := none,
    radiusKm := none, searchQuery := none, sortBy := none }

/-- Sample request body whose radiusKm violates the schema bound of 100. -/
def bodyBadRadius : RawBody :=
  { plate := none, lat := some 0, lng := some 0, fuelType := none,
    radiusKm := some 200, searchQuery := none, sortBy := none }

/-- The parse result of bodyDefaultSort: sortBy has received the zod
default. -/
def pBody0 : ParsedBody :=
  { plate := none, lat := 0, lng := 0, fuelType := none,
    radiusKm := none, searchQuery := none, sortBy := "distance" }

/-- The suggestion the pipeline builds for stNear under sampleMath and
idFmt: distance 1.2742, score 97.4516. -/
def sugNear : StationSuggestion :=
  { station := stNear, distance := 6371/5000, score := 243629/2500,
    reason := "Very close" }

/-- A payment row already marked success, as left behind by a first
delivery of the captured-payment event. -/
def paidRecord : PaymentRecord :=
  { ownerId := "own-1", planId := "basic", status := "success",
    razorpayPaymentId := some "pay_1", razorpaySignature := none,
    subscriptionStartsAt := some 0, subscriptionEndsAt := some 2592000000 }

/-- Database slice after a successful first processing of a captured
payment: the payment row is success and the owner subscription is set. -/
def paidCrm : CrmState :=
  { paymentRecord := some paidRecord,
    owner := { subscriptionType := some "basic",
               subscriptionEndsAt := some 2592000000 },
    activityLogCount := 1, notificationCount := 1 }

/-! Theorems.  Helper lemmas come first, then one theorem per claim, each
marked with its claim id, with closed witnesses and counterexamples. -/

theorem jsCeilDiv_eq_ceil (a : Int) (b : Nat) :
    jsCeilDiv a b = ⌈(a : ℚ) / (b : ℚ)⌉ := by
  unfold jsCeilDiv
  rw [show ((-a) / (b : Int)) = ⌊((-a : Int) : ℚ) / ((b : Nat) : ℚ)⌋ from
    (Rat.floor_intCast_div_natCast (-a) b).symm]
  push_cast
  rw [neg_div, Int.floor_neg, neg_neg]

theorem lookup_snd_ne_of_forall {l : List (String × String)}
    (h : ∀ p ∈ l, p.2 ≠ "") {k v : String} (hl : l.lookup k = some v) :
    v ≠ "" := by
  induction l with
  | nil => simp [List.lookup] at hl
  | cons hd tl ih =>
    rw [List.lookup] at hl
    by_cases hk : k == hd.1
    · rw [hk] at hl
      simp only [Option.some.injEq] at hl
      exact hl ▸ h hd (List.mem_cons_self hd tl)
    · rw [Bool.of_not_eq_true hk] at hl
      exact ih (fun p hp => h p (List.mem_cons_of_mem hd hp)) hl

theorem parseIndianPlate_state_ne_empty {plate : String} {ri : RegionInfo}
    (h : parseIndianPlate plate = some ri) : ri.state ≠ "" := by
  unfold parseIndianPlate at h
  dsimp only at h
  split at h
  case _ st hl =>
    simp only [Option.some.injEq] at h
    have hne : st ≠ "" := lookup_snd_ne_of_forall (by decide) hl
    rw [← h]
    exact hne
  case _ => exact absurd h (by simp)

theorem sameStateApplies_parse (s plate : String) :
    sameStateApplies s ((parseIndianPlate plate).map RegionInfo.state) =
      decide ((parseIndianPlate plate).map RegionInfo.state = some s) := by
  rcases hp : parseIndianPlate plate with _ | ri
  · simp [sameStateApplies]
  · have hne := parseIndianPlate_state_ne_empty hp
    simp only [Option.map_some', sameStateApplies]
    by_cases h : s = ri.state
    · subst h
      simp [hne]
    · simp [h, Ne.symm h]

/-- Claim C1: for every candidate station, every distance and every plate,
calculateStationScore returns exactly
max(0, 100 - 2 * distance + 20 for a partner + 5 * rating + 10 when the
station state equals the state parsed from the plate).  The POST handler
applies this function to the Haversine distance of the candidate and rounds
the result to two decimals for the response. -/
theorem calculateStationScore_formula (station : Station) (distance : ℚ)
    (plate : String) :
    calculateStationScore station distance
        ((parseIndianPlate plate).map RegionInfo.state) =
      max 0 (100 - 2 * distance + (if station.isPartner then 20 else 0) +
        5 * station.rating +
        (if (parseIndianPlate plate).map RegionInfo.state = some station.state
         then 10 else 0)) := by
  unfold calculateStationScore
  rw [sameStateApplies_parse]
  simp only [decide_eq_true_eq]
  split_ifs <;> (congr 1; ring)

/-- Claim C7: the shared calculateHaversineDistance of lib/api-utils and the
private copy inside the stations/search route are the same function of the
coordinates and of the Math primitives: both compute R * c with R = 6371 and
c the haversine central angle. -/
theorem haversine_copies_agree (m : MathOps) (lat1 lon1 lat2 lon2 : ℚ) :
    ApiUtils.calculateHaversineDistance m lat1 lon1 lat2 lon2 =
      StationsSearch.calculateHaversineDistance m lat1 lon1 lat2 lon2 := rfl

theorem mem_sortSuggestions {sug : StationSuggestion} {s : String}
    {l : List StationSuggestion} : sug ∈ sortSuggestions s l ↔ sug ∈ l := by
  unfold sortSuggestions
  split_ifs <;> exact (List.mergeSort_perm l _).mem_iff

theorem parse_sortBy_eq {b : RawBody} {p : ParsedBody}
    (h : suggestPumpsSchemaParse b = some p) :
    p.sortBy = b.sortBy.getD "distance" := by
  unfold suggestPumpsSchemaParse at h
  cases hl : b.lat <;> cases hg : b.lng <;> rw [hl, hg] at h <;> dsimp only at h
  · exact absurd h (by simp)
  · exact absurd h (by simp)
  · exact absurd h (by simp)
  · split at h
    · simp only [Option.some.injEq] at h
      rw [← h]
    · exact absurd h (by simp)

theorem mergeSort_key_sorted {α : Type} {β : Type} [LinearOrder β]
    (f : α → β) (l : List α) :
    (l.mergeSort fun a b => decide (f a ≤ f b)).Pairwise
      (fun a b => f a ≤ f b) := by
  refine List.Pairwise.imp (fun h => by simpa using h)
    (@List.sorted_mergeSort α (fun a b => decide (f a ≤ f b)) ?_ ?_ l)
  · intro a b c hab hbc
    simp only [decide_eq_true_eq] at *
    exact le_trans hab hbc
  · intro a b
    simp only [Bool.or_eq_true, decide_eq_true_eq]
    exact le_total _ _

theorem mergeSort_key_sorted_desc {α : Type} {β : Type} [LinearOrder β]
    (f : α → β) (l : List α) :
    (l.mergeSort fun a b => decide (f b ≤ f a)).Pairwise
      (fun a b => f b ≤ f a) := by
  refine List.Pairwise.imp (fun h => by simpa using h)
    (@List.sorted_mergeSort α (fun a b => decide (f b ≤ f a)) ?_ ?_ l)
  · intro a b c hab hbc
    simp only [decide_eq_true_eq] at *
    exact le_trans hbc hab
  · intro a b
    simp only [Bool.or_eq_true, decide_eq_true_eq]
    exact le_total _ _

theorem suggestPumps_suggestions_cases (m : MathOps) (js : JsFmt)
    (body : RawBody) (stations : List Station) :
    (suggestPumpsPOST m js body stations).suggestions = [] ∨
    ∃ p, suggestPumpsSchemaParse body = some p ∧
      (suggestPumpsPOST m js body stations).suggestions =
        (sortSuggestions p.sortBy (buildSuggestions m js p stations)).take 30 := by
  unfold suggestPumpsPOST
  rcases h : suggestPumpsSchemaParse body with _ | p
  · left; rfl
  · dsimp only
    split
    · left; rfl
    · right; exact ⟨p, rfl, rfl⟩

/-- Claim C2, corrected.  When the caller selects no sort field, the zod
schema supplies the default value distance, so the response is sorted by
ascending distance, not by descending score; a selected field of distance,
rating or name sorts by that field (distance and name ascending, rating
descending).  The descending-score branch of the sort chain is unreachable
because the parsed sortBy is always one of the three enum values. -/
theorem suggestPumps_sort_selected (m : MathOps) (js : JsFmt) (body : RawBody)
    (stations : List Station) :
    ((body.sortBy = none ∨ body.sortBy = some "distance") →
      ((suggestPumpsPOST m js body stations).suggestions.map
        StationSuggestion.distance).Pairwise (· ≤ ·)) ∧
    (body.sortBy = some "rating" →
      ((suggestPumpsPOST m js body stations).suggestions.map
        (fun sug => sug.station.rating)).Pairwise (· ≥ ·)) ∧
    (body.sortBy = some "name" →
      ((suggestPumpsPOST m js body stations).suggestions.map
        (fun sug => sug.station.name)).Pairwise (· ≤ ·)) := by
  rcases suggestPumps_suggestions_cases m js body stations with he | ⟨p, hp, he⟩
  · rw [he]
    exact ⟨fun _ => List.Pairwise.nil, fun _ => List.Pairwise.nil,
      fun _ => List.Pairwise.nil⟩
  · refine ⟨fun hsel => ?_, fun hsel => ?_, fun hsel => ?_⟩ <;>
      rw [he] <;> rw [List.pairwise_map] <;>
      refine List.Pairwise.sublist (List.take_sublist 30 _) ?_
    · have hs : p.sortBy = "distance" := by
        rcases hsel with h0 | h0 <;> rw [parse_sortBy_eq hp, h0] <;> rfl
      rw [hs]
      exact mergeSort_key_sorted StationSuggestion.distance _
    · have hs : p.sortBy = "rating" := by rw [parse_sortBy_eq hp, hsel]; rfl
      rw [hs]
      exact mergeSort_key_sorted_desc
        (fun sug : StationSuggestion => sug.station.rating) _
    · have hs : p.sortBy = "name" := by rw [parse_sortBy_eq hp, hsel]; rfl
      rw [hs]
      exact mergeSort_key_sorted
        (fun sug : StationSuggestion => sug.station.name) _

/-- Witness for claim C2 (amended): with no sort field selected and two
candidate stations, the response is sorted by ascending distance. -/
theorem suggestPumps_sort_selected_witness :
    ((suggestPumpsPOST sampleMath idFmt bodyDefaultSort
        [stNear, stFar]).suggestions.map
      StationSuggestion.distance).Pairwise (· ≤ ·) :=
  (suggestPumps_sort_selected sampleMath idFmt bodyDefaultSort
    [stNear, stFar]).1 (Or.inl rfl)

unseal Rat.mul Rat.add Rat.sub Rat.inv List.merge List.mergeSort in
/-- Counterexample for claim C2 as stated: the request bodyDefaultSort
selects no sort field, yet the suggestions are not in descending score
order.  The nearer station has no partner flag and rating zero (score
exactly 97.4516), the farther one is a partner rated five (score exactly
134.8064), and the default distance sort puts the lower score first.  The
genuine trigonometric functions give the same ordering: any nearby pair
where the closer station scores lower does. -/
theorem suggestPumps_default_not_score_sorted :
    ¬ ((suggestPumpsPOST sampleMath idFmt bodyDefaultSort
        [stNear, stFar]).suggestions.map
      (fun sug => sug.score)).Pairwise (fun a b => b ≤ a) := by
  intro h
  rw [show ((suggestPumpsPOST sampleMath idFmt bodyDefaultSort
      [stNear, stFar]).suggestions.map (fun sug => sug.score)) =
    [(243629 : ℚ)/2500, (84254 : ℚ)/625] from by decide] at h
  have h2 := List.rel_of_pairwise_cons h (List.mem_singleton.mpr rfl)
  norm_num at h2

/-- Claim C3: every suggestion the POST handler returns lies within the
requested radius (default 20 km) of the query point, measured with the
Haversine distance of lib/api-utils; a candidate that survives the
bounding-box prefilter but exceeds the radius is dropped by the per-station
distance check and never appears, whatever the candidate list was. -/
theorem suggestPumps_within_radius (m : MathOps) (js : JsFmt) (body : RawBody)
    (stations : List Station) (p : ParsedBody) (sug : StationSuggestion)
    (hp : suggestPumpsSchemaParse body = some p)
    (hmem : sug ∈ (suggestPumpsPOST m js body stations).suggestions) :
    ApiUtils.calculateHaversineDistance m p.lat p.lng sug.station.lat
        sug.station.lng ≤ p.radiusKm.getD 20 := by
  unfold suggestPumpsPOST at hmem
  rw [hp] at hmem
  dsimp only at hmem
  split at hmem
  · exact absurd hmem (by simp)
  · have h1 : sug ∈ sortSuggestions p.sortBy (buildSuggestions m js p stations) :=
      List.take_subset 30 _ hmem
    have h2 : sug ∈ buildSuggestions m js p stations := mem_sortSuggestions.mp h1
    unfold buildSuggestions at h2
    dsimp only at h2
    rw [List.mem_filterMap] at h2
    obtain ⟨station, _, hsome⟩ := h2
    split at hsome
    · exact absurd hsome (by simp)
    case _ hlt =>
      simp only [Option.some.injEq] at hsome
      have hstation : sug.station = station := by rw [← hsome]
      rw [hstation]
      exact le_of_not_lt hlt

unseal Rat.mul Rat.add Rat.sub Rat.inv List.merge List.mergeSort in
/-- Witness for claim C3: for the default request and the single candidate
stNear, the returned suggestion is within the default 20 km radius. -/
theorem suggestPumps_within_radius_witness :
    ApiUtils.calculateHaversineDistance sampleMath pBody0.lat pBody0.lng
        sugNear.station.lat sugNear.station.lng ≤ pBody0.radiusKm.getD 20 :=
  suggestPumps_within_radius sampleMath idFmt bodyDefaultSort [stNear]
    pBody0 sugNear rfl (by decide)

/-- Claim C4: the suggestions array of every response holds at most 30
entries, the first 30 of the sorted list, and whenever the response reports
a count it equals the length of that truncated list.  The count field is
absent only on the validation-failure and empty-candidate responses, whose
suggestions array is empty. -/
theorem suggestPumps_page_size (m : MathOps) (js : JsFmt) (body : RawBody)
    (stations : List Station) :
    (suggestPumpsPOST m js body stations).suggestions.length ≤ 30 ∧
    ((suggestPumpsPOST m js body stations).count = none ∨
      (suggestPumpsPOST m js body stations).count =
        some (suggestPumpsPOST m js body stations).suggestions.length) := by
  unfold suggestPumpsPOST
  rcases suggestPumpsSchemaParse body with _ | p
  · exact ⟨by simp, Or.inl rfl⟩
  · dsimp only
    split
    · exact ⟨by simp, Or.inl rfl⟩
    · refine ⟨?_, Or.inr rfl⟩
      simp only [List.length_take]
      exact min_le_left _ _

/-- Claim C6: when the body fails schema validation the handler answers 400
with the error field Validation failed and the zod issue details, and the
database query is never reached. -/
theorem suggestPumps_validation_failure (m : MathOps) (js : JsFmt)
    (body : RawBody) (stations : List Station)
    (h : suggestPumpsSchemaParse body = none) :
    suggestPumpsPOST m js body stations =
      { status := 400, success := false, error := some "Validation failed",
        hasDetails := true, dbQueried := false, suggestions := [],
        count := none, message := none } := by
  unfold suggestPumpsPOST
  rw [h]

/-- Witness for claim C6: a radiusKm of 200 violates the schema bound of
100, so the request is rejected with 400 and no database query. -/
theorem suggestPumps_validation_failure_witness :
    suggestPumpsPOST sampleMath idFmt bodyBadRadius [stNear] =
      { status := 400, success := false, error := some "Validation failed",
        hasDetails := true, dbQueried := false, suggestions := [],
        count := none, message := none } :=
  suggestPumps_validation_failure sampleMath idFmt bodyBadRadius [stNear]
    (by decide)

/-- Counterexample for claim C5 as stated: the catch handler of the Razorpay
webhook consumer answers HTTP 200, not a 4xx or 5xx status, when an internal
exception is caught. -/
theorem razorpay_catch_status_not_4xx5xx :
    (razorpayWebhookCatchResponse "database timeout").status = 200 ∧
    ¬ (400 ≤ (razorpayWebhookCatchResponse "database timeout").status ∧
       (razorpayWebhookCatchResponse "database timeout").status ≤ 599) := by
  decide

/-- Claim C5, corrected.  The station endpoints answer a caught internal
exception with a 5xx JSON error (the suggest-pumps handler uses 500), but
the Razorpay webhook consumer does not follow that pattern: its catch block
deliberately answers HTTP 200 with the error message in the JSON body so
that Razorpay will not retry the delivery. -/
theorem catch_blocks_status (msg : String) :
    suggestPumpsCatchResponse.status = 500 ∧
    400 ≤ suggestPumpsCatchResponse.status ∧
    suggestPumpsCatchResponse.status ≤ 599 ∧
    razorpayWebhookCatchResponse msg =
      { status := 200, errorBody := some msg, received := true } :=
  ⟨rfl, by decide, by decide, rfl⟩

/-- Claim C8: processing a captured payment is idempotent.  When the payment
row is already marked success the handler acknowledges without invoking
activateSubscription and without touching the database, and in general a
second delivery of the same event leaves the database state exactly as the
first delivery left it. -/
theorem capturedPayment_idempotent (s : CrmState) (payId : String)
    (now now2 : Int) :
    (∀ pay, s.paymentRecord = some pay → pay.status = "success" →
      processCapturedPayment s payId now =
        { response := { status := 200, received := true,
                        message := some "Payment already processed",
                        ackError := none },
          state := s, activateInvoked := false }) ∧
    (processCapturedPayment (processCapturedPayment s payId now).state payId
        now2).state = (processCapturedPayment s payId now).state := by
  constructor
  · intro pay hrec hstat
    unfold processCapturedPayment
    rw [hrec]
    dsimp only
    rw [hstat]
    simp
  · rcases hrec : s.paymentRecord with _ | pay
    · simp [processCapturedPayment, hrec]
    · by_cases hstat : pay.status = "success"
      · simp [processCapturedPayment, hrec, hstat]
      · rcases hplan : planDetails pay.planId with _ | plan
        · simp [processCapturedPayment, activateSubscription, hrec, hstat, hplan]
        · simp [processCapturedPayment, activateSubscription, hrec, hstat, hplan]

/-- Witness for claim C8: a captured-payment delivery against a database
whose payment row is already success is acknowledged unchanged, without
invoking activateSubscription. -/
theorem capturedPayment_idempotent_witness :
    processCapturedPayment paidCrm "pay_1" 0 =
      { response := { status := 200, received := true,
                      message := some "Payment already processed",
                      ackError := none },
        state := paidCrm, activateInvoked := false } :=
  (capturedPayment_idempotent paidCrm "pay_1" 0 0).1 paidRecord rfl rfl

/-- Claim C9: for an owner with both subscription fields set, daysRemaining
is the ceiling of (subscriptionEndsAt - now) / 86400000, isValid holds
exactly when daysRemaining is at least minus the grace constant 3,
isInGracePeriod exactly when daysRemaining lies in [-3, 0], and the
subscription counts as expired unless daysRemaining is positive, so an owner
whose subscription ends right now (daysRemaining zero) is reported as
expired but in grace, not active. -/
theorem checkSubscription_grace (st : String) (endsAt now : Int)
    (hne : st ≠ "") :
    (checkSubscription (some ⟨some st, some endsAt⟩) now).daysRemaining =
      ⌈((endsAt - now : Int) : ℚ) / (86400000 : ℚ)⌉ ∧
    ((checkSubscription (some ⟨some st, some endsAt⟩) now).isValid = true ↔
      -GRACE_PERIOD_DAYS ≤ ⌈((endsAt - now : Int) : ℚ) / (86400000 : ℚ)⌉) ∧
    ((checkSubscription (some ⟨some st, some endsAt⟩) now).isInGracePeriod = true ↔
      (-GRACE_PERIOD_DAYS ≤ ⌈((endsAt - now : Int) : ℚ) / (86400000 : ℚ)⌉ ∧
        ⌈((endsAt - now : Int) : ℚ) / (86400000 : ℚ)⌉ ≤ 0)) ∧
    ((checkSubscription (some ⟨some st, some endsAt⟩) now).isExpired = false ↔
      0 < ⌈((endsAt - now : Int) : ℚ) / (86400000 : ℚ)⌉) := by
  have hcast : ((MS_PER_DAY : Nat) : ℚ) = (86400000 : ℚ) := by
    norm_num [MS_PER_DAY]
  have hceil : jsCeilDiv (endsAt - now) MS_PER_DAY =
      ⌈((endsAt - now : Int) : ℚ) / (86400000 : ℚ)⌉ := by
    rw [jsCeilDiv_eq_ceil, hcast]
  unfold checkSubscription
  dsimp only
  have hbe : (st == "") = false := by
    simp [hne]
  rw [hbe]
  rw [← hceil]
  simp only [Bool.false_eq_true, if_false]
  split_ifs with h1 h2 <;>
    refine ⟨rfl, ?_, ?_, ?_⟩ <;>
    simp only [GRACE_PERIOD_DAYS] at * <;>
    constructor <;> intro hh <;> first | omega | rfl | trivial

/-- Witness for claim C9: a subscription that ends at the very moment of the
check (daysRemaining zero) is valid but already in the grace period. -/
theorem checkSubscription_grace_witness :
    (checkSubscription (some ⟨some "1_month", some 0⟩) 0).isValid = true ∧
    (checkSubscription (some ⟨some "1_month", some 0⟩) 0).isInGracePeriod = true ∧
    (checkSubscription (some ⟨some "1_month", some 0⟩) 0).isExpired = true := by
  have h := checkSubscription_grace "1_month" 0 0 (by decide)
  have hzero : ⌈((0 - 0 : Int) : ℚ) / (86400000 : ℚ)⌉ = 0 := by norm_num
  refine ⟨h.2.1.mpr ?_, h.2.2.1.mpr ?_, ?_⟩
  · rw [hzero]
    decide
  · rw [hzero]
    exact ⟨by decide, le_refl 0⟩
  · have hexp := h.2.2.2
    rw [hzero] at hexp
    rcases hb : (checkSubscription (some ⟨some "1_month", some 0⟩) 0).isExpired
    · exact absurd (hexp.mp hb) (by decide)
    · rfl

theorem rateLimitRun_le (config : RateLimitConfig) (ts : List Int) :
    ∀ r : RateRecord, (∀ t ∈ ts, t ≤ r.resetTime) →
      (rateLimitRun (some r) ts config).1 ≤ config.maxRequests - r.count := by
  induction ts with
  | nil =>
    intro r _
    simp [rateLimitRun]
  | cons t rest ih =>
    intro r h
    have hnl : ¬ r.resetTime < t := not_lt.mpr (h t (List.mem_cons_self t rest))
    have hrest : ∀ t2 ∈ rest, t2 ≤ r.resetTime :=
      fun t2 ht2 => h t2 (List.mem_cons_of_mem t ht2)
    unfold rateLimitRun rateLimit
    dsimp only
    rw [if_neg hnl]
    by_cases hc : config.maxRequests ≤ r.count
    · rw [if_pos hc]
      have htail := ih r hrest
      simp only [reduceCtorEq, if_false]
      omega
    · rw [if_neg hc]
      have htail := ih { r with count := r.count + 1 } hrest
      simp only [eq_self_iff_true, if_true]
      dsimp only at htail
      omega

/-- Claim C10, corrected.  For one client identifier: a window that starts
with a call at time t0 allows at most maxRequests calls among it and all
later calls up to the reset time; once the stored count has reached
maxRequests, every call arriving at or before resetTime is answered 429
with Retry-After of ceil((resetTime - now) / 1000) seconds and the stored
record is unchanged; and the first call arriving strictly after resetTime
starts the fresh window with count 1.  The original claim said the fresh
window starts at or after resetTime; at the exact reset time the code still
rejects, because it tests resetTime < now strictly. -/
theorem rateLimit_window_behavior (config : RateLimitConfig) :
    (∀ (t0 : Int) (ts : List Int), 1 ≤ config.maxRequests →
      (∀ t ∈ ts, t ≤ t0 + config.windowMs) →
      (rateLimitRun none (t0 :: ts) config).1 ≤ config.maxRequests) ∧
    (∀ (r : RateRecord) (now : Int), config.maxRequests ≤ r.count →
      now ≤ r.resetTime →
      rateLimit (some r) now config =
        (some { status := 429,
                retryAfter := jsCeilDiv (r.resetTime - now) 1000 }, r)) ∧
    (∀ (r : RateRecord) (now : Int), r.resetTime < now →
      rateLimit (some r) now config =
        (none, { count := 1, resetTime := now + config.windowMs })) := by
  refine ⟨?_, ?_, ?_⟩
  · intro t0 ts hmax h
    unfold rateLimitRun rateLimit
    dsimp only
    simp only [eq_self_iff_true, if_true]
    have htail := rateLimitRun_le config ts { count := 1, resetTime := t0 + config.windowMs } h
    dsimp only at htail
    omega
  · intro r now hc hle
    unfold rateLimit
    dsimp only
    rw [if_neg (not_lt.mpr hle), if_pos hc]
  · intro r now hlt
    unfold rateLimit
    dsimp only
    rw [if_pos hlt]

/-- Witness for claim C10 (amended): with the auth configuration, seven
calls inside one fifteen-minute window are granted at most five
admissions. -/
theorem rateLimit_window_behavior_witness :
    (rateLimitRun none [0, 1, 2, 3, 4, 5, 6] rateLimitConfigs.auth).1 ≤
      rateLimitConfigs.auth.maxRequests :=
  (rateLimit_window_behavior rateLimitConfigs.auth).1 0 [1, 2, 3, 4, 5, 6]
    (by decide) (by decide)

/-- Counterexample for claim C10 as stated: with the auth configuration and
a saturated record whose window ends at time 1000, the call arriving exactly
at resetTime is still answered 429 and the stored record is unchanged; no
fresh window with count 1 is started, because the code tests
resetTime < now strictly. -/
theorem rateLimit_at_resetTime_not_fresh :
    rateLimit (some { count := 5, resetTime := 1000 }) 1000
        rateLimitConfigs.auth =
      (some { status := 429, retryAfter := 0 },
        { count := 5, resetTime := 1000 }) ∧
    (rateLimit (some { count := 5, resetTime := 1000 }) 1000
        rateLimitConfigs.auth).2 ≠
      { count := 1, resetTime := 1000 + rateLimitConfigs.auth.windowMs } := by
  decide
